import Mathlib

/-!
Shallow embedding of the `DatabaseService` class of the WarehouseManager
repository (the inventory/stock-ledger data layer, `src/services/database.ts`,
inlined after the navigator in `src/navigation/AppNavigator.tsx`, lines
119-376).

Modelling conventions:
* The SQLite database file is modelled as the two tables (`items`,
  `stock_logs`) plus the two AUTOINCREMENT counters; the table rows persist
  whether or not the handle is open, mirroring the on-disk file.
  `CREATE TABLE IF NOT EXISTS` preserves existing rows, so `createTables`
  leaves the tables untouched.
* `this.db` (null or an open handle) is the `dbOpen` flag; `this.isInitialized`
  is the `isInitialized` flag.  `SQLite.openDatabaseAsync` is modelled as
  always succeeding.
* JavaScript numbers used as quantities are modelled as `Int` (the spec's data
  model declares them integers).  The defaulting expressions `x || 0` on an
  integer and `s || ''` on a string are the identity (`0 || 0 === 0`,
  `'' || '' === ''`), so they are dropped.
* Timestamp strings (`new Date().toISOString()`, `created_at`) are modelled as
  `Nat` clock readings supplied by the caller/environment; SQLite's
  `ORDER BY ... DESC` over ISO-8601 text is order-isomorphic to `Nat` order.
  `ORDER BY` is realised as an insertion sort by the ordering column.
* Each method returns `Except DBError α × ServiceState`: a thrown exception
  is `Except.error`, and the state component is the service state at the
  moment of the throw (JS exceptions do not roll anything back).
-/

namespace WarehouseManager

/-- The TS union type `'in' | 'out'` of stock movements (`StockLog.type`). -/
inductive MovementType where
  | stockIn
  | stockOut
deriving DecidableEq

/-- A row of the `items` table (TS interface `Item`, with `id` assigned). -/
structure Item where
  id : Nat
  name : String
  sku : String
  quantity : Int
  location : String
  description : String
  created_at : Nat
deriving DecidableEq

/-- A row of the `stock_logs` table (TS interface `StockLog`, with `id`
assigned; the optional joined `item_name` field is represented separately as
`StockLog × String` in join results). -/
structure StockLog where
  id : Nat
  item_id : Nat
  type : MovementType
  quantity : Int
  note : String
  timestamp : Nat
deriving DecidableEq

/-- The TS interface `DashboardStats`; `recentLogs` rows carry the joined
`item_name`. -/
structure DashboardStats where
  totalItems : Nat
  totalQuantity : Int
  recentLogs : List (StockLog × String)
deriving DecidableEq

/-- Argument of `addItem` (TS `Omit<Item, 'id'>`). -/
structure ItemInput where
  name : String
  sku : String
  quantity : Int
  location : String
  description : String
  created_at : Nat
deriving DecidableEq

/-- Argument of `addStockLog` (TS `Omit<StockLog, 'id'>`). -/
structure StockLogInput where
  item_id : Nat
  type : MovementType
  quantity : Int
  note : String
  timestamp : Nat
deriving DecidableEq

/-- The error taxonomy of the service: `storageUnavailable` is the thrown
`'Database not initialized'` (or open failure), `notFound` the thrown
`'Item not found'`. -/
inductive DBError where
  | storageUnavailable
  | notFound
deriving DecidableEq

/-- State of the `DatabaseService` instance together with the backing store:
the two tables and their AUTOINCREMENT counters, plus the `this.db` handle
(`dbOpen`) and `this.isInitialized` flags. -/
structure ServiceState where
  items : List Item
  logs : List StockLog
  nextItemId : Nat
  nextLogId : Nat
  dbOpen : Bool
  isInitialized : Bool
deriving DecidableEq

deriving instance DecidableEq for Except

/-- The exported singleton `databaseService = new DatabaseService()`: handle
null, not initialized, empty backing store (fresh `warehouse.db`). -/
def databaseService : ServiceState :=
  { items := [], logs := [], nextItemId := 1, nextLogId := 1,
    dbOpen := false, isInitialized := false }

/-- `init()` (lines 151-174): a no-op when `this.isInitialized && this.db`;
otherwise opens the database and creates the tables (`IF NOT EXISTS`
preserves the rows), then sets `isInitialized`. -/
def init (s : ServiceState) : Except DBError Unit × ServiceState :=
  if s.isInitialized && s.dbOpen then
    (Except.ok (), s)
  else
    (Except.ok (), { s with dbOpen := true, isInitialized := true })

/-- `ensureInitialized()` (lines 176-181): calls `init` when
`!this.isInitialized || !this.db`. -/
def ensureInitialized (s : ServiceState) : Except DBError Unit × ServiceState :=
  if !s.isInitialized || !s.dbOpen then init s else (Except.ok (), s)

/-- `isReady()` (lines 183-185): `this.isInitialized && this.db !== null`. -/
def isReady (s : ServiceState) : Bool :=
  s.isInitialized && s.dbOpen

/-- `ORDER BY created_at DESC` over the `items` table. -/
def orderByCreatedAtDesc (l : List Item) : List Item :=
  List.insertionSort (fun a b => b.created_at ≤ a.created_at) l

/-- `ORDER BY timestamp DESC` over `stock_logs` rows. -/
def orderByTimestampDesc (l : List StockLog) : List StockLog :=
  List.insertionSort (fun a b => b.timestamp ≤ a.timestamp) l

/-- `ORDER BY sl.timestamp DESC` over joined `(stock_log, item_name)` rows. -/
def orderByTimestampDescJoined (l : List (StockLog × String)) :
    List (StockLog × String) :=
  List.insertionSort (fun a b => b.1.timestamp ≤ a.1.timestamp) l

/-- `addItem(item)` (lines 225-240): `ensureInitialized`, re-check the handle,
then `INSERT INTO items ...` and return `lastInsertRowId`. -/
def addItem (item : ItemInput) (s : ServiceState) :
    Except DBError Nat × ServiceState :=
  match ensureInitialized s with
  | (Except.error e, s1) => (Except.error e, s1)
  | (Except.ok _, s1) =>
    if !s1.dbOpen then (Except.error DBError.storageUnavailable, s1)
    else
      let row : Item :=
        { id := s1.nextItemId, name := item.name, sku := item.sku,
          quantity := item.quantity, location := item.location,
          description := item.description, created_at := item.created_at }
      (Except.ok s1.nextItemId,
        { s1 with items := s1.items ++ [row], nextItemId := s1.nextItemId + 1 })

/-- `getAllItems()` (lines 242-253): `SELECT * FROM items ORDER BY created_at
DESC`. -/
def getAllItems (s : ServiceState) :
    Except DBError (List Item) × ServiceState :=
  match ensureInitialized s with
  | (Except.error e, s1) => (Except.error e, s1)
  | (Except.ok _, s1) =>
    if !s1.dbOpen then (Except.error DBError.storageUnavailable, s1)
    else (Except.ok (orderByCreatedAtDesc s1.items), s1)

/-- `getItemById(id)` (lines 255-266): `getFirstAsync('SELECT * FROM items
WHERE id = ?')`, i.e. the first row whose `id` matches, or null. -/
def getItemById (id : Nat) (s : ServiceState) :
    Except DBError (Option Item) × ServiceState :=
  match ensureInitialized s with
  | (Except.error e, s1) => (Except.error e, s1)
  | (Except.ok _, s1) =>
    if !s1.dbOpen then (Except.error DBError.storageUnavailable, s1)
    else (Except.ok (s1.items.find? (fun i => i.id == id)), s1)

/-- `updateItemQuantity(id, newQuantity)` (lines 268-278): `UPDATE items SET
quantity = ? WHERE id = ?` — an unconditional overwrite of every matching
row. -/
def updateItemQuantity (id : Nat) (newQuantity : Int) (s : ServiceState) :
    Except DBError Unit × ServiceState :=
  match ensureInitialized s with
  | (Except.error e, s1) => (Except.error e, s1)
  | (Except.ok _, s1) =>
    if !s1.dbOpen then (Except.error DBError.storageUnavailable, s1)
    else
      (Except.ok (),
        { s1 with items :=
            s1.items.map (fun i =>
              if i.id == id then { i with quantity := newQuantity } else i) })

/-- `deleteItem(id)` (lines 280-290): `DELETE FROM items WHERE id = ?`; no
statement touches `stock_logs`. -/
def deleteItem (id : Nat) (s : ServiceState) :
    Except DBError Unit × ServiceState :=
  match ensureInitialized s with
  | (Except.error e, s1) => (Except.error e, s1)
  | (Except.ok _, s1) =>
    if !s1.dbOpen then (Except.error DBError.storageUnavailable, s1)
    else (Except.ok (), { s1 with items := s1.items.filter (fun i => !(i.id == id)) })

/-- `addStockLog(log)` (lines 293-308): `ensureInitialized`, then `INSERT INTO
stock_logs ...` and return `lastInsertRowId`. -/
def addStockLog (log : StockLogInput) (s : ServiceState) :
    Except DBError Nat × ServiceState :=
  match ensureInitialized s with
  | (Except.error e, s1) => (Except.error e, s1)
  | (Except.ok _, s1) =>
    if !s1.dbOpen then (Except.error DBError.storageUnavailable, s1)
    else
      let row : StockLog :=
        { id := s1.nextLogId, item_id := log.item_id, type := log.type,
          quantity := log.quantity, note := log.note, timestamp := log.timestamp }
      (Except.ok s1.nextLogId,
        { s1 with logs := s1.logs ++ [row], nextLogId := s1.nextLogId + 1 })

/-- `getStockLogsByItemId(itemId)` (lines 310-318): NOTE — unlike the CRUD
methods this one does NOT call `ensureInitialized`; it throws immediately when
`this.db` is null.  Otherwise `SELECT * FROM stock_logs WHERE item_id = ?
ORDER BY timestamp DESC`. -/
def getStockLogsByItemId (itemId : Nat) (s : ServiceState) :
    Except DBError (List StockLog) × ServiceState :=
  if !s.dbOpen then (Except.error DBError.storageUnavailable, s)
  else
    (Except.ok (orderByTimestampDesc (s.logs.filter (fun l => l.item_id == itemId))), s)

/-- The inner join `FROM stock_logs sl JOIN items i ON sl.item_id = i.id`,
selecting `sl.*, i.name as item_name`: every (log, item) pair with matching
ids; a log whose item has been deleted produces no row. -/
def joinLogsItems (logs : List StockLog) (items : List Item) :
    List (StockLog × String) :=
  logs.flatMap (fun l =>
    (items.filter (fun i => i.id == l.item_id)).map (fun i => (l, i.name)))

/-- `getRecentStockLogs(limit = 5)` (lines 320-328): NOTE — does NOT call
`ensureInitialized`; throws when `this.db` is null.  Otherwise the join above,
`ORDER BY sl.timestamp DESC LIMIT ?`. -/
def getRecentStockLogs (limit : Nat) (s : ServiceState) :
    Except DBError (List (StockLog × String)) × ServiceState :=
  if !s.dbOpen then (Except.error DBError.storageUnavailable, s)
  else
    (Except.ok ((orderByTimestampDescJoined (joinLogsItems s.logs s.items)).take limit), s)

/-- `SUM(quantity)` over the `items` table (`COALESCE(..., 0)` is the empty
sum). -/
def sumQuantities (items : List Item) : Int :=
  (items.map (fun i => i.quantity)).sum

/-- `getDashboardStats()` (lines 331-349): `COUNT(*)`,
`COALESCE(SUM(quantity), 0)` and `getRecentStockLogs(5)`; the JS `|| 0`
defaults are the identity on the integer results. -/
def getDashboardStats (s : ServiceState) :
    Except DBError DashboardStats × ServiceState :=
  match ensureInitialized s with
  | (Except.error e, s1) => (Except.error e, s1)
  | (Except.ok _, s1) =>
    if !s1.dbOpen then (Except.error DBError.storageUnavailable, s1)
    else
      match getRecentStockLogs 5 s1 with
      | (Except.error e, s2) => (Except.error e, s2)
      | (Except.ok recent, s2) =>
        (Except.ok
          { totalItems := s1.items.length,
            totalQuantity := sumQuantities s1.items,
            recentLogs := recent }, s2)

/-- `processStockMovement(itemId, type, quantity, note)` (lines 352-373):
NOTE — does NOT call `ensureInitialized`; throws when `this.db` is null.
Looks up the item (throws `'Item not found'` when absent), computes
`in: quantity + q` / `out: Math.max(0, quantity - q)`, persists it via
`updateItemQuantity`, then appends a ledger entry recording the REQUESTED
quantity via `addStockLog`.  `ts` models the `new Date().toISOString()`
clock reading. -/
def processStockMovement (itemId : Nat) (type : MovementType) (quantity : Int)
    (note : String) (ts : Nat) (s : ServiceState) :
    Except DBError Unit × ServiceState :=
  if !s.dbOpen then (Except.error DBError.storageUnavailable, s)
  else
    match getItemById itemId s with
    | (Except.error e, s1) => (Except.error e, s1)
    | (Except.ok none, s1) => (Except.error DBError.notFound, s1)
    | (Except.ok (some item), s1) =>
      let newQuantity :=
        match type with
        | MovementType.stockIn => item.quantity + quantity
        | MovementType.stockOut => max 0 (item.quantity - quantity)
      match updateItemQuantity itemId newQuantity s1 with
      | (Except.error e, s2) => (Except.error e, s2)
      | (Except.ok _, s2) =>
        match addStockLog
            { item_id := itemId, type := type, quantity := quantity,
              note := note, timestamp := ts } s2 with
        | (Except.error e, s3) => (Except.error e, s3)
        | (Except.ok _, s3) => (Except.ok (), s3)

/-! ## Proof-layer helpers -/

/-- The service state after a (re)initialisation: handle open, flag set,
tables untouched. -/
def setReady (s : ServiceState) : ServiceState :=
  { s with dbOpen := true, isInitialized := true }

theorem ensureInitialized_eq (s : ServiceState) :
    ensureInitialized s = (Except.ok (), setReady s) := by
  obtain ⟨items, logs, ni, nl, dbo, ini⟩ := s
  cases dbo <;> cases ini <;> simp [ensureInitialized, init, setReady]

@[simp] theorem setReady_items (s : ServiceState) : (setReady s).items = s.items := rfl

@[simp] theorem setReady_logs (s : ServiceState) : (setReady s).logs = s.logs := rfl

@[simp] theorem setReady_nextItemId (s : ServiceState) :
    (setReady s).nextItemId = s.nextItemId := rfl

@[simp] theorem setReady_nextLogId (s : ServiceState) :
    (setReady s).nextLogId = s.nextLogId := rfl

@[simp] theorem setReady_dbOpen (s : ServiceState) : (setReady s).dbOpen = true := rfl

@[simp] theorem setReady_isInitialized (s : ServiceState) :
    (setReady s).isInitialized = true := rfl

/-- The clamped quantity `processStockMovement` writes back: `in` adds, `out`
subtracts floored at zero. -/
def newQuantityFor (type : MovementType) (current q : Int) : Int :=
  match type with
  | MovementType.stockIn => current + q
  | MovementType.stockOut => max 0 (current - q)

/-- `UPDATE items SET quantity = ? WHERE id = ?` commutes with the
`WHERE id = ?` row lookup. -/
theorem find?_map_updateQuantity (l : List Item) (itemId : Nat) (v : Int) :
    (l.map (fun i => if i.id == itemId then { i with quantity := v } else i)).find?
        (fun i => i.id == itemId)
      = (l.find? (fun i => i.id == itemId)).map
          (fun i => if i.id == itemId then { i with quantity := v } else i) := by
  rw [List.find?_map]
  have hpf : ((fun i : Item => i.id == itemId) ∘
      (fun i => if i.id == itemId then { i with quantity := v } else i))
      = (fun i : Item => i.id == itemId) := by
    funext b
    by_cases h : b.id = itemId <;> simp [Function.comp, h]
  rw [hpf]

/-- Anatomy of a successful `processStockMovement` call: the matching rows of
the item table get the clamped quantity, and exactly one ledger entry carrying
the requested quantity, type, note and timestamp is appended. -/
theorem processStockMovement_ok (s : ServiceState) (itemId : Nat)
    (type : MovementType) (q : Int) (note : String) (ts : Nat) (item : Item)
    (hdb : s.dbOpen = true)
    (hfind : s.items.find? (fun i => i.id == itemId) = some item) :
    processStockMovement itemId type q note ts s =
      (Except.ok (),
        { items := s.items.map (fun i =>
            if i.id == itemId then
              { i with quantity := newQuantityFor type item.quantity q } else i),
          logs := s.logs ++
            [{ id := s.nextLogId, item_id := itemId, type := type,
               quantity := q, note := note, timestamp := ts }],
          nextItemId := s.nextItemId, nextLogId := s.nextLogId + 1,
          dbOpen := true, isInitialized := true }) := by
  obtain ⟨items, logs, ni, nl, dbo, ini⟩ := s
  simp only [ServiceState.dbOpen] at hdb
  subst hdb
  simp only [ServiceState.items] at hfind
  cases ini <;> cases type <;>
    simp [processStockMovement, getItemById, updateItemQuantity, addStockLog,
      ensureInitialized, init, hfind, newQuantityFor]

/-! ## Shape lemmas for the individual operations -/

theorem addItem_eq (it : ItemInput) (s : ServiceState) :
    addItem it s = (Except.ok s.nextItemId,
      { items := s.items ++
          [{ id := s.nextItemId, name := it.name, sku := it.sku,
             quantity := it.quantity, location := it.location,
             description := it.description, created_at := it.created_at }],
        logs := s.logs, nextItemId := s.nextItemId + 1, nextLogId := s.nextLogId,
        dbOpen := true, isInitialized := true }) := by
  obtain ⟨items, logs, ni, nl, dbo, ini⟩ := s
  cases dbo <;> cases ini <;> simp [addItem, ensureInitialized, init]

theorem getAllItems_eq (s : ServiceState) :
    getAllItems s = (Except.ok (orderByCreatedAtDesc s.items), setReady s) := by
  obtain ⟨items, logs, ni, nl, dbo, ini⟩ := s
  cases dbo <;> cases ini <;> simp [getAllItems, ensureInitialized, init, setReady]

theorem getItemById_eq (id : Nat) (s : ServiceState) :
    getItemById id s
      = (Except.ok (s.items.find? (fun i => i.id == id)), setReady s) := by
  obtain ⟨items, logs, ni, nl, dbo, ini⟩ := s
  cases dbo <;> cases ini <;> simp [getItemById, ensureInitialized, init, setReady]

theorem updateItemQuantity_eq (id : Nat) (v : Int) (s : ServiceState) :
    updateItemQuantity id v s = (Except.ok (),
      { items := s.items.map
          (fun i => if i.id == id then { i with quantity := v } else i),
        logs := s.logs, nextItemId := s.nextItemId, nextLogId := s.nextLogId,
        dbOpen := true, isInitialized := true }) := by
  obtain ⟨items, logs, ni, nl, dbo, ini⟩ := s
  cases dbo <;> cases ini <;> simp [updateItemQuantity, ensureInitialized, init]

theorem deleteItem_eq (id : Nat) (s : ServiceState) :
    deleteItem id s = (Except.ok (),
      { items := s.items.filter (fun i => !(i.id == id)),
        logs := s.logs, nextItemId := s.nextItemId, nextLogId := s.nextLogId,
        dbOpen := true, isInitialized := true }) := by
  obtain ⟨items, logs, ni, nl, dbo, ini⟩ := s
  cases dbo <;> cases ini <;> simp [deleteItem, ensureInitialized, init]

theorem addStockLog_eq (lg : StockLogInput) (s : ServiceState) :
    addStockLog lg s = (Except.ok s.nextLogId,
      { items := s.items,
        logs := s.logs ++
          [{ id := s.nextLogId, item_id := lg.item_id, type := lg.type,
             quantity := lg.quantity, note := lg.note, timestamp := lg.timestamp }],
        nextItemId := s.nextItemId, nextLogId := s.nextLogId + 1,
        dbOpen := true, isInitialized := true }) := by
  obtain ⟨items, logs, ni, nl, dbo, ini⟩ := s
  cases dbo <;> cases ini <;> simp [addStockLog, ensureInitialized, init]

theorem getDashboardStats_eq (s : ServiceState) :
    getDashboardStats s = (Except.ok
      { totalItems := s.items.length,
        totalQuantity := sumQuantities s.items,
        recentLogs :=
          (orderByTimestampDescJoined (joinLogsItems s.logs s.items)).take 5 },
      setReady s) := by
  obtain ⟨items, logs, ni, nl, dbo, ini⟩ := s
  cases dbo <;> cases ini <;>
    simp [getDashboardStats, getRecentStockLogs, ensureInitialized, init, setReady]

theorem processStockMovement_closed_eq (itemId : Nat) (type : MovementType)
    (q : Int) (note : String) (ts : Nat) (s : ServiceState)
    (hdb : s.dbOpen = false) :
    processStockMovement itemId type q note ts s
      = (Except.error DBError.storageUnavailable, s) := by
  simp [processStockMovement, hdb]

theorem processStockMovement_absent_eq (itemId : Nat) (type : MovementType)
    (q : Int) (note : String) (ts : Nat) (s : ServiceState)
    (hdb : s.dbOpen = true)
    (hfind : s.items.find? (fun i => i.id == itemId) = none) :
    processStockMovement itemId type q note ts s
      = (Except.error DBError.notFound, setReady s) := by
  obtain ⟨items, logs, ni, nl, dbo, ini⟩ := s
  simp only [ServiceState.dbOpen] at hdb
  subst hdb
  simp only [ServiceState.items] at hfind
  cases ini <;>
    simp [processStockMovement, getItemById, ensureInitialized, init, hfind, setReady]

/-! ## Concrete states used to evaluate the operations -/

/-- A ready service holding one item (id 1, quantity 8, the §8 scenario item)
and an empty ledger. -/
def sampleState : ServiceState :=
  { items := [{ id := 1, name := "Widget", sku := "W-1", quantity := 8,
                location := "A1", description := "", created_at := 0 }],
    logs := [], nextItemId := 2, nextLogId := 1,
    dbOpen := true, isInitialized := true }

/-- A ready service whose single ledger entry references item id 1, which has
been deleted from the item table (an orphaned log). -/
def orphanState : ServiceState :=
  { items := [],
    logs := [{ id := 1, item_id := 1, type := MovementType.stockOut,
               quantity := 2, note := "", timestamp := 3 }],
    nextItemId := 2, nextLogId := 2, dbOpen := true, isInitialized := true }

/-- A ready service with one item and two ledger entries for it at distinct
timestamps. -/
def twoLogState : ServiceState :=
  { items := [{ id := 1, name := "Widget", sku := "W-1", quantity := 8,
                location := "A1", description := "", created_at := 0 }],
    logs := [{ id := 1, item_id := 1, type := MovementType.stockIn,
               quantity := 8, note := "", timestamp := 1 },
             { id := 2, item_id := 1, type := MovementType.stockOut,
               quantity := 3, note := "sold", timestamp := 4 }],
    nextItemId := 2, nextLogId := 3, dbOpen := true, isInitialized := true }

/-! ## C1 -/

/-- C1: for an existing item with stored quantity `Q` (the row
`processStockMovement`'s lookup returns) and a requested quantity `q ≥ 0`,
after `processStockMovement` the stored quantity equals `Q + q` for `'in'`
and `max 0 (Q - q)` for `'out'` (over-withdrawal is clamped, not rejected),
and in particular it is non-negative. -/
theorem processStockMovement_quantity (s : ServiceState) (itemId : Nat)
    (type : MovementType) (q : Int) (note : String) (ts : Nat) (item : Item)
    (hdb : s.dbOpen = true)
    (hfind : s.items.find? (fun i => i.id == itemId) = some item)
    (hQ : 0 ≤ item.quantity) (hq : 0 ≤ q) :
    ∃ s', processStockMovement itemId type q note ts s = (Except.ok (), s') ∧
      ∃ item', s'.items.find? (fun i => i.id == itemId) = some item' ∧
        item'.quantity = newQuantityFor type item.quantity q ∧
        0 ≤ item'.quantity := by
  rw [processStockMovement_ok s itemId type q note ts item hdb hfind]
  refine ⟨_, rfl, { item with quantity := newQuantityFor type item.quantity q }, ?_, ?_, ?_⟩
  · rw [find?_map_updateQuantity, hfind]
    have h0 := @List.find?_some _ (fun i : Item => i.id == itemId) item s.items hfind
    have h1 : item.id = itemId := by simpa using h0
    simp [h1]
  · rfl
  · cases type with
    | stockIn => exact add_nonneg hQ hq
    | stockOut => exact le_max_left 0 _

/-- C1 witness: `sampleState` holds item 1 with quantity 8; stock-in of 3
yields stored quantity `8 + 3 = 11 ≥ 0`. -/
theorem processStockMovement_quantity_witness :
    ∃ s', processStockMovement 1 MovementType.stockIn 3 "recv" 9 sampleState
        = (Except.ok (), s') ∧
      ∃ item', s'.items.find? (fun i => i.id == 1) = some item' ∧
        item'.quantity = newQuantityFor MovementType.stockIn 8 3 ∧
        0 ≤ item'.quantity :=
  processStockMovement_quantity sampleState 1 MovementType.stockIn 3 "recv" 9
    { id := 1, name := "Widget", sku := "W-1", quantity := 8,
      location := "A1", description := "", created_at := 0 }
    (by decide) (by decide) (by decide) (by decide)

/-! ## C2 -/

/-- C2: after a successful `processStockMovement`, the ledger holds exactly
one new entry, and it records the requested (unclamped) quantity `q`, the
requested type, and the note. -/
theorem processStockMovement_ledger (s : ServiceState) (itemId : Nat)
    (type : MovementType) (q : Int) (note : String) (ts : Nat) (item : Item)
    (hdb : s.dbOpen = true)
    (hfind : s.items.find? (fun i => i.id == itemId) = some item) :
    ∃ s', processStockMovement itemId type q note ts s = (Except.ok (), s') ∧
      s'.logs = s.logs ++
        [{ id := s.nextLogId, item_id := itemId, type := type,
           quantity := q, note := note, timestamp := ts }] := by
  rw [processStockMovement_ok s itemId type q note ts item hdb hfind]
  exact ⟨_, rfl, rfl⟩

/-- C2 witness, the §8 scenario: item 1 has quantity 8; `('out', 20)` appends
the single ledger entry recording quantity 20 and type `out`, while the stored
quantity is clamped to 0. -/
theorem processStockMovement_ledger_witness :
    (∃ s', processStockMovement 1 MovementType.stockOut 20 "big" 5 sampleState
        = (Except.ok (), s') ∧
      s'.logs = sampleState.logs ++
        [{ id := 1, item_id := 1, type := MovementType.stockOut,
           quantity := 20, note := "big", timestamp := 5 }]) ∧
    (processStockMovement 1 MovementType.stockOut 20 "big" 5 sampleState).2.items
      = [{ id := 1, name := "Widget", sku := "W-1", quantity := 0,
           location := "A1", description := "", created_at := 0 }] :=
  ⟨processStockMovement_ledger sampleState 1 MovementType.stockOut 20 "big" 5
    { id := 1, name := "Widget", sku := "W-1", quantity := 8,
      location := "A1", description := "", created_at := 0 }
    (by decide) (by decide), by decide⟩

/-! ## C3 -/

/-- The §3 invariant: every item row has a non-negative quantity. -/
def ItemsNonneg (s : ServiceState) : Prop :=
  ∀ i ∈ s.items, 0 ≤ i.quantity

instance (s : ServiceState) : Decidable (ItemsNonneg s) :=
  inferInstanceAs (Decidable (∀ i ∈ s.items, 0 ≤ i.quantity))

/-- C3 counterexample: `updateItemQuantity` is an unconditional overwrite, so
invoking it with the negative quantity `-1` on a state satisfying the
invariant succeeds and leaves an item row with quantity `-1 < 0`; the
invariant is therefore not preserved by every service operation. -/
theorem updateItemQuantity_negative_cex :
    ItemsNonneg sampleState ∧
    (updateItemQuantity 1 (-1) sampleState).1 = Except.ok () ∧
    ¬ ItemsNonneg (updateItemQuantity 1 (-1) sampleState).2 := by decide

/-- C3 amended: `quantity ≥ 0` is preserved by `deleteItem` and `addStockLog`
unconditionally, and by `addItem`, `updateItemQuantity` and
`processStockMovement` provided the caller-supplied quantity is non-negative
(the caller is responsible for non-negativity; a negative argument to
`updateItemQuantity` or `addItem` breaks the invariant). -/
theorem quantity_invariant_preserved (s : ServiceState) (hs : ItemsNonneg s) :
    (∀ it : ItemInput, 0 ≤ it.quantity → ItemsNonneg (addItem it s).2) ∧
    (∀ id : Nat, ∀ q : Int, 0 ≤ q → ItemsNonneg (updateItemQuantity id q s).2) ∧
    (∀ id : Nat, ItemsNonneg (deleteItem id s).2) ∧
    (∀ lg : StockLogInput, ItemsNonneg (addStockLog lg s).2) ∧
    (∀ itemId : Nat, ∀ type : MovementType, ∀ q : Int, ∀ note : String, ∀ ts : Nat,
      0 ≤ q → ItemsNonneg (processStockMovement itemId type q note ts s).2) := by
  refine ⟨?_, ?_, ?_, ?_, ?_⟩
  · intro it hq
    rw [addItem_eq]
    intro i hi
    rcases List.mem_append.mp hi with h | h
    · exact hs i h
    · rcases List.mem_singleton.mp h with rfl
      exact hq
  · intro id q hq
    rw [updateItemQuantity_eq]
    intro i hi
    rcases List.mem_map.mp hi with ⟨j, hj, rfl⟩
    by_cases h : j.id == id <;> simp [h] <;> [exact hq; exact hs j hj]
  · intro id
    rw [deleteItem_eq]
    intro i hi
    exact hs i (List.mem_of_mem_filter hi)
  · intro lg
    rw [addStockLog_eq]
    intro i hi
    exact hs i hi
  · intro itemId type q note ts hq
    cases hdb : s.dbOpen with
    | false =>
      rw [processStockMovement_closed_eq itemId type q note ts s hdb]
      exact hs
    | true =>
      cases hfind : s.items.find? (fun i => i.id == itemId) with
      | none =>
        rw [processStockMovement_absent_eq itemId type q note ts s hdb hfind]
        exact hs
      | some item =>
        rw [processStockMovement_ok s itemId type q note ts item hdb hfind]
        intro i hi
        rcases List.mem_map.mp hi with ⟨j, hj, rfl⟩
        have hitem : 0 ≤ item.quantity := hs item (List.mem_of_find?_eq_some hfind)
        by_cases h : j.id == itemId
        · simp only [h, if_true]
          cases type with
          | stockIn => exact add_nonneg hitem hq
          | stockOut => exact le_max_left 0 _
        · simp only [h, if_false]
          exact hs j hj

/-- C3 amended witness: on `sampleState` (invariant holds) each of the five
operations with non-negative quantity arguments keeps the invariant. -/
theorem quantity_invariant_preserved_witness :
    ItemsNonneg (addItem
      { name := "N", sku := "", quantity := 2, location := "", description := "",
        created_at := 1 } sampleState).2 ∧
    ItemsNonneg (updateItemQuantity 1 4 sampleState).2 ∧
    ItemsNonneg (deleteItem 1 sampleState).2 ∧
    ItemsNonneg (addStockLog
      { item_id := 1, type := MovementType.stockIn, quantity := 2, note := "",
        timestamp := 2 } sampleState).2 ∧
    ItemsNonneg (processStockMovement 1 MovementType.stockOut 20 "" 5 sampleState).2 :=
  ⟨(quantity_invariant_preserved sampleState (by decide)).1 _ (by decide),
   (quantity_invariant_preserved sampleState (by decide)).2.1 1 4 (by decide),
   (quantity_invariant_preserved sampleState (by decide)).2.2.1 1,
   (quantity_invariant_preserved sampleState (by decide)).2.2.2.1 _,
   (quantity_invariant_preserved sampleState (by decide)).2.2.2.2 1
     MovementType.stockOut 20 "" 5 (by decide)⟩

/-! ## C4 -/

/-- C4 counterexample: on the fresh (never-initialized) singleton,
`processStockMovement`, `getStockLogsByItemId` and `getRecentStockLogs` do
not lazily initialize — they fail with `storageUnavailable` and leave the
service unready. -/
theorem uninitialized_ops_cex :
    isReady databaseService = false ∧
    processStockMovement 1 MovementType.stockIn 1 "" 0 databaseService
      = (Except.error DBError.storageUnavailable, databaseService) ∧
    getStockLogsByItemId 1 databaseService
      = (Except.error DBError.storageUnavailable, databaseService) ∧
    getRecentStockLogs 5 databaseService
      = (Except.error DBError.storageUnavailable, databaseService) := by decide

/-- C4 amended: `isReady` reports the readiness flags; repeated `init` is a
no-op when ready; `addItem`, `getAllItems`, `getItemById`,
`updateItemQuantity`, `deleteItem`, `addStockLog` and `getDashboardStats`
lazily initialize (they never fail with `storageUnavailable` and leave the
service ready) — but `getStockLogsByItemId`, `getRecentStockLogs` and
`processStockMovement` do not: with the handle closed they fail with
`storageUnavailable` instead of initializing. -/
theorem lazy_initialization (s : ServiceState) (it : ItemInput)
    (lg : StockLogInput) (id : Nat) (q : Int) (type : MovementType)
    (note : String) (ts : Nat) (limit : Nat) :
    isReady s = (s.isInitialized && s.dbOpen) ∧
    (isReady s = true → init s = (Except.ok (), s)) ∧
    ((addItem it s).1 ≠ Except.error DBError.storageUnavailable
      ∧ isReady (addItem it s).2 = true) ∧
    ((getAllItems s).1 ≠ Except.error DBError.storageUnavailable
      ∧ isReady (getAllItems s).2 = true) ∧
    ((getItemById id s).1 ≠ Except.error DBError.storageUnavailable
      ∧ isReady (getItemById id s).2 = true) ∧
    ((updateItemQuantity id q s).1 ≠ Except.error DBError.storageUnavailable
      ∧ isReady (updateItemQuantity id q s).2 = true) ∧
    ((deleteItem id s).1 ≠ Except.error DBError.storageUnavailable
      ∧ isReady (deleteItem id s).2 = true) ∧
    ((addStockLog lg s).1 ≠ Except.error DBError.storageUnavailable
      ∧ isReady (addStockLog lg s).2 = true) ∧
    ((getDashboardStats s).1 ≠ Except.error DBError.storageUnavailable
      ∧ isReady (getDashboardStats s).2 = true) ∧
    (s.dbOpen = false →
      getStockLogsByItemId id s = (Except.error DBError.storageUnavailable, s) ∧
      getRecentStockLogs limit s = (Except.error DBError.storageUnavailable, s) ∧
      processStockMovement id type q note ts s
        = (Except.error DBError.storageUnavailable, s)) := by
  refine ⟨rfl, ?_, ?_, ?_, ?_, ?_, ?_, ?_, ?_, ?_⟩
  · intro h
    rw [isReady, Bool.and_eq_true] at h
    simp [init, h.1, h.2]
  · rw [addItem_eq]
    exact ⟨by simp, rfl⟩
  · rw [getAllItems_eq]
    exact ⟨by simp, rfl⟩
  · rw [getItemById_eq]
    exact ⟨by simp, rfl⟩
  · rw [updateItemQuantity_eq]
    exact ⟨by simp, rfl⟩
  · rw [deleteItem_eq]
    exact ⟨by simp, rfl⟩
  · rw [addStockLog_eq]
    exact ⟨by simp, rfl⟩
  · rw [getDashboardStats_eq]
    exact ⟨by simp, rfl⟩
  · intro hdb
    exact ⟨by simp [getStockLogsByItemId, hdb],
           by simp [getRecentStockLogs, hdb],
           by simp [processStockMovement, hdb]⟩

/-- C4 amended witness: repeated `init` on a ready state is a no-op; on the
fresh singleton the three non-lazy operations fail with `storageUnavailable`
and `addItem` leaves the service ready. -/
theorem lazy_initialization_witness :
    init sampleState = (Except.ok (), sampleState) ∧
    (getStockLogsByItemId 7 databaseService
       = (Except.error DBError.storageUnavailable, databaseService) ∧
     getRecentStockLogs 5 databaseService
       = (Except.error DBError.storageUnavailable, databaseService) ∧
     processStockMovement 7 MovementType.stockIn 2 "note" 0 databaseService
       = (Except.error DBError.storageUnavailable, databaseService)) ∧
    isReady (addItem
      { name := "N", sku := "", quantity := 1, location := "",
        description := "", created_at := 0 } databaseService).2 = true :=
  ⟨(lazy_initialization sampleState
      { name := "N", sku := "", quantity := 1, location := "",
        description := "", created_at := 0 }
      { item_id := 1, type := MovementType.stockIn, quantity := 1, note := "",
        timestamp := 0 } 7 2 MovementType.stockIn "note" 0 5).2.1 (by decide),
   (lazy_initialization databaseService
      { name := "N", sku := "", quantity := 1, location := "",
        description := "", created_at := 0 }
      { item_id := 1, type := MovementType.stockIn, quantity := 1, note := "",
        timestamp := 0 } 7 2 MovementType.stockIn "note" 0 5).2.2.2.2.2.2.2.2.2
      (by decide),
   (lazy_initialization databaseService
      { name := "N", sku := "", quantity := 1, location := "",
        description := "", created_at := 0 }
      { item_id := 1, type := MovementType.stockIn, quantity := 1, note := "",
        timestamp := 0 } 7 2 MovementType.stockIn "note" 0 5).2.2.1.2⟩

/-! ## C5 -/

/-- C5 counterexample: `orphanState`'s ledger is non-empty, but its only
entry references a deleted item, so `getRecentStockLogs 5` returns no rows at
all — the inner join drops ledger entries whose item no longer exists. -/
theorem getRecentStockLogs_orphan_cex :
    orphanState.logs ≠ [] ∧
    getRecentStockLogs 5 orphanState = (Except.ok [], orphanState) := by decide

/-- C5 amended: on an initialized service, `getRecentStockLogs n` returns the
`n` most recent entries among those ledger entries whose referenced item still
exists (the inner join excludes orphaned entries), each annotated with its
item's name: the result is a maximal-timestamp selection of size
`min n |join|`, sorted most-recent-first. -/
theorem getRecentStockLogs_spec (s : ServiceState) (n : Nat)
    (hdb : s.dbOpen = true) :
    ∃ res, getRecentStockLogs n s = (Except.ok res, s) ∧
      res.length = min n (joinLogsItems s.logs s.items).length ∧
      (∀ p ∈ res, p.1 ∈ s.logs ∧
        ∃ i ∈ s.items, i.id = p.1.item_id ∧ p.2 = i.name) ∧
      List.Sorted (fun a b => b.1.timestamp ≤ a.1.timestamp) res ∧
      ∃ rest, (res ++ rest).Perm (joinLogsItems s.logs s.items) ∧
        ∀ a ∈ rest, ∀ b ∈ res, a.1.timestamp ≤ b.1.timestamp := by
  haveI instTot : IsTotal (StockLog × String)
      (fun a b => b.1.timestamp ≤ a.1.timestamp) :=
    ⟨fun a b => Nat.le_total b.1.timestamp a.1.timestamp⟩
  haveI instTr : IsTrans (StockLog × String)
      (fun a b => b.1.timestamp ≤ a.1.timestamp) :=
    ⟨fun a b c h1 h2 => Nat.le_trans h2 h1⟩
  have hsorted : List.Sorted (fun a b => b.1.timestamp ≤ a.1.timestamp)
      (orderByTimestampDescJoined (joinLogsItems s.logs s.items)) :=
    List.sorted_insertionSort _ _
  have hperm : (orderByTimestampDescJoined (joinLogsItems s.logs s.items)).Perm
      (joinLogsItems s.logs s.items) := List.perm_insertionSort _ _
  refine ⟨(orderByTimestampDescJoined (joinLogsItems s.logs s.items)).take n,
    by simp [getRecentStockLogs, hdb], ?_, ?_, ?_, ?_⟩
  · rw [List.length_take]
    rw [orderByTimestampDescJoined, List.length_insertionSort]
  · intro p hp
    have hp1 : p ∈ orderByTimestampDescJoined (joinLogsItems s.logs s.items) :=
      List.mem_of_mem_take hp
    have hp2 : p ∈ joinLogsItems s.logs s.items := hperm.mem_iff.mp hp1
    rw [joinLogsItems, List.mem_flatMap] at hp2
    obtain ⟨l, hl, hp3⟩ := hp2
    rw [List.mem_map] at hp3
    obtain ⟨i, hi, rfl⟩ := hp3
    rw [List.mem_filter] at hi
    refine ⟨hl, i, hi.1, ?_, rfl⟩
    simpa using hi.2
  · exact List.Pairwise.sublist (List.take_sublist n _) hsorted
  · refine ⟨(orderByTimestampDescJoined (joinLogsItems s.logs s.items)).drop n,
      ?_, ?_⟩
    · rw [List.take_append_drop]
      exact hperm
    · have hsplit : List.Pairwise (fun a b => b.1.timestamp ≤ a.1.timestamp)
          ((orderByTimestampDescJoined (joinLogsItems s.logs s.items)).take n ++
            (orderByTimestampDescJoined (joinLogsItems s.logs s.items)).drop n) := by
        rw [List.take_append_drop]
        exact hsorted
      obtain ⟨h1, h2, hcross⟩ := List.pairwise_append.mp hsplit
      intro a ha b hb
      exact hcross b hb a ha

/-- C5 amended witness: `twoLogState` has two joinable ledger entries and
limit 1 selects the most recent of them. -/
theorem getRecentStockLogs_spec_witness :
    ∃ res, getRecentStockLogs 1 twoLogState = (Except.ok res, twoLogState) ∧
      res.length = min 1 (joinLogsItems twoLogState.logs twoLogState.items).length ∧
      (∀ p ∈ res, p.1 ∈ twoLogState.logs ∧
        ∃ i ∈ twoLogState.items, i.id = p.1.item_id ∧ p.2 = i.name) ∧
      List.Sorted (fun a b => b.1.timestamp ≤ a.1.timestamp) res ∧
      ∃ rest, (res ++ rest).Perm (joinLogsItems twoLogState.logs twoLogState.items) ∧
        ∀ a ∈ rest, ∀ b ∈ res, a.1.timestamp ≤ b.1.timestamp :=
  getRecentStockLogs_spec twoLogState 1 (by decide)

/-! ## C6 -/

/-- C6: on an initialized service, `processStockMovement` fails with
`notFound` iff no item row matches `itemId`, and on that failure the item
table, the ledger and both id counters are untouched (the lookup precedes
both writes). -/
theorem processStockMovement_notFound_iff (s : ServiceState) (itemId : Nat)
    (type : MovementType) (q : Int) (note : String) (ts : Nat)
    (hdb : s.dbOpen = true) :
    ((processStockMovement itemId type q note ts s).1
        = Except.error DBError.notFound
      ↔ s.items.find? (fun i => i.id == itemId) = none) ∧
    ((processStockMovement itemId type q note ts s).1
        = Except.error DBError.notFound →
      (processStockMovement itemId type q note ts s).2.items = s.items ∧
      (processStockMovement itemId type q note ts s).2.logs = s.logs ∧
      (processStockMovement itemId type q note ts s).2.nextItemId = s.nextItemId ∧
      (processStockMovement itemId type q note ts s).2.nextLogId = s.nextLogId) := by
  cases hfind : s.items.find? (fun i => i.id == itemId) with
  | none =>
    rw [processStockMovement_absent_eq itemId type q note ts s hdb hfind]
    exact ⟨by simp, fun _ => ⟨rfl, rfl, rfl, rfl⟩⟩
  | some item =>
    rw [processStockMovement_ok s itemId type q note ts item hdb hfind]
    simp

/-- C6 witness: item id 99 is absent from `sampleState`, so the movement
fails with `notFound` and modifies nothing. -/
theorem processStockMovement_notFound_iff_witness :
    ((processStockMovement 99 MovementType.stockOut 1 "x" 2 sampleState).1
        = Except.error DBError.notFound
      ↔ sampleState.items.find? (fun i => i.id == 99) = none) ∧
    ((processStockMovement 99 MovementType.stockOut 1 "x" 2 sampleState).1
        = Except.error DBError.notFound →
      (processStockMovement 99 MovementType.stockOut 1 "x" 2 sampleState).2.items
        = sampleState.items ∧
      (processStockMovement 99 MovementType.stockOut 1 "x" 2 sampleState).2.logs
        = sampleState.logs ∧
      (processStockMovement 99 MovementType.stockOut 1 "x" 2 sampleState).2.nextItemId
        = sampleState.nextItemId ∧
      (processStockMovement 99 MovementType.stockOut 1 "x" 2 sampleState).2.nextLogId
        = sampleState.nextLogId) :=
  processStockMovement_notFound_iff sampleState 99 MovementType.stockOut 1 "x" 2
    (by decide)

/-! ## C7 -/

/-- C7: `getDashboardStats` succeeds, its `totalItems` is the length of the
list `getAllItems` returns and its `totalQuantity` their quantity sum; on the
fresh empty store it returns `{totalItems := 0, totalQuantity := 0,
recentLogs := []}`. -/
theorem getDashboardStats_spec (s : ServiceState) :
    (∃ stats l, getDashboardStats s = (Except.ok stats, setReady s) ∧
      getAllItems s = (Except.ok l, setReady s) ∧
      stats.totalItems = l.length ∧
      stats.totalQuantity = (l.map (fun i => i.quantity)).sum) ∧
    getDashboardStats databaseService
      = (Except.ok { totalItems := 0, totalQuantity := 0, recentLogs := [] },
         setReady databaseService) := by
  constructor
  · refine ⟨_, orderByCreatedAtDesc s.items, getDashboardStats_eq s,
      getAllItems_eq s, ?_, ?_⟩
    · simp [orderByCreatedAtDesc, List.length_insertionSort]
    · have hp : (orderByCreatedAtDesc s.items).Perm s.items :=
        List.perm_insertionSort _ _
      have hmp : ((orderByCreatedAtDesc s.items).map (fun i => i.quantity)).Perm
          (s.items.map (fun i => i.quantity)) := hp.map _
      show (s.items.map (fun i => i.quantity)).sum
        = ((orderByCreatedAtDesc s.items).map (fun i => i.quantity)).sum
      exact hmp.sum_eq.symm
  · decide

/-! ## C8 -/

/-- C8: `deleteItem` removes exactly the item rows with the given id and
leaves every ledger row unchanged; the deleted item's ledger entries remain
retrievable via `getStockLogsByItemId` (no cascade). -/
theorem deleteItem_no_cascade (s : ServiceState) (id : Nat) :
    ∃ s', deleteItem id s = (Except.ok (), s') ∧
      s'.logs = s.logs ∧
      s'.items = s.items.filter (fun i => !(i.id == id)) ∧
      getStockLogsByItemId id s' =
        (Except.ok (orderByTimestampDesc
          (s.logs.filter (fun l => l.item_id == id))), s') := by
  rw [deleteItem_eq]
  refine ⟨_, rfl, rfl, rfl, ?_⟩
  simp [getStockLogsByItemId]

/-! ## C9 -/

/-- The §3 property of ledger entries: strictly positive quantity. -/
def LogsPositive (s : ServiceState) : Prop :=
  ∀ l ∈ s.logs, 0 < l.quantity

instance (s : ServiceState) : Decidable (LogsPositive s) :=
  inferInstanceAs (Decidable (∀ l ∈ s.logs, 0 < l.quantity))

/-- C9 counterexample: the service does not enforce positivity — `addStockLog`
with quantity 0 succeeds and leaves a ledger entry whose quantity is not
strictly positive, so the property is not maintained by every appending
operation. -/
theorem addStockLog_zero_cex :
    LogsPositive sampleState ∧
    (addStockLog
      { item_id := 1, type := MovementType.stockIn, quantity := 0,
        note := "", timestamp := 0 } sampleState).1 = Except.ok 1 ∧
    ¬ LogsPositive (addStockLog
      { item_id := 1, type := MovementType.stockIn, quantity := 0,
        note := "", timestamp := 0 } sampleState).2 := by decide

/-- C9 amended: strict positivity of every ledger entry is preserved by
`addStockLog` and `processStockMovement` provided the caller passes a strictly
positive quantity (the screens validate `quantity > 0`; the service itself
records whatever magnitude it is given). -/
theorem logs_positive_preserved (s : ServiceState) (hs : LogsPositive s) :
    (∀ lg : StockLogInput, 0 < lg.quantity → LogsPositive (addStockLog lg s).2) ∧
    (∀ itemId : Nat, ∀ type : MovementType, ∀ q : Int, ∀ note : String,
      ∀ ts : Nat, 0 < q →
        LogsPositive (processStockMovement itemId type q note ts s).2) := by
  constructor
  · intro lg hq
    rw [addStockLog_eq]
    intro l hl
    rcases List.mem_append.mp hl with h | h
    · exact hs l h
    · rcases List.mem_singleton.mp h with rfl
      exact hq
  · intro itemId type q note ts hq
    cases hdb : s.dbOpen with
    | false =>
      rw [processStockMovement_closed_eq itemId type q note ts s hdb]
      exact hs
    | true =>
      cases hfind : s.items.find? (fun i => i.id == itemId) with
      | none =>
        rw [processStockMovement_absent_eq itemId type q note ts s hdb hfind]
        exact hs
      | some item =>
        rw [processStockMovement_ok s itemId type q note ts item hdb hfind]
        intro l hl
        rcases List.mem_append.mp hl with h | h
        · exact hs l h
        · rcases List.mem_singleton.mp h with rfl
          exact hq

/-- C9 amended witness: on `sampleState` both appending operations with a
positive quantity keep every ledger entry strictly positive. -/
theorem logs_positive_preserved_witness :
    LogsPositive (addStockLog
      { item_id := 1, type := MovementType.stockIn, quantity := 4, note := "",
        timestamp := 2 } sampleState).2 ∧
    LogsPositive (processStockMovement 1 MovementType.stockIn 4 "" 2 sampleState).2 :=
  ⟨(logs_positive_preserved sampleState (by decide)).1 _ (by decide),
   (logs_positive_preserved sampleState (by decide)).2 1 MovementType.stockIn 4 "" 2
     (by decide)⟩

/-! ## C10 -/

/-- C10: when no item row matches the id, `updateItemQuantity` and
`deleteItem` complete without error (no `notFound`), and the item table, the
ledger and both id counters are unchanged. -/
theorem missing_id_noop (s : ServiceState) (id : Nat) (q : Int)
    (habs : ∀ i ∈ s.items, i.id ≠ id) :
    (∃ s', updateItemQuantity id q s = (Except.ok (), s') ∧
      s'.items = s.items ∧ s'.logs = s.logs ∧
      s'.nextItemId = s.nextItemId ∧ s'.nextLogId = s.nextLogId) ∧
    (∃ s', deleteItem id s = (Except.ok (), s') ∧
      s'.items = s.items ∧ s'.logs = s.logs ∧
      s'.nextItemId = s.nextItemId ∧ s'.nextLogId = s.nextLogId) := by
  constructor
  · rw [updateItemQuantity_eq]
    refine ⟨_, rfl, ?_, rfl, rfl, rfl⟩
    calc s.items.map (fun i => if i.id == id then { i with quantity := q } else i)
        = s.items.map (fun i => i) := List.map_congr_left
          (fun i hi => by simp [habs i hi])
      _ = s.items := List.map_id' _
  · rw [deleteItem_eq]
    refine ⟨_, rfl, ?_, rfl, rfl, rfl⟩
    exact List.filter_eq_self.mpr (fun i hi => by simp [habs i hi])

/-- C10 witness: id 99 matches no row of `sampleState`; both operations are
error-free no-ops on the store. -/
theorem missing_id_noop_witness :
    (∃ s', updateItemQuantity 99 7 sampleState = (Except.ok (), s') ∧
      s'.items = sampleState.items ∧ s'.logs = sampleState.logs ∧
      s'.nextItemId = sampleState.nextItemId ∧
      s'.nextLogId = sampleState.nextLogId) ∧
    (∃ s', deleteItem 99 sampleState = (Except.ok (), s') ∧
      s'.items = sampleState.items ∧ s'.logs = sampleState.logs ∧
      s'.nextItemId = sampleState.nextItemId ∧
      s'.nextLogId = sampleState.nextLogId) :=
  missing_id_noop sampleState 99 7 (by decide)

end WarehouseManager
